import Mathlib

/-!
# Verification of the CA-Backend reconciliation matching engine

Shallow embedding of the reconciliation core of the repository:

* `app/ram/ram_service.py` — `RAMOrchestrationService._apply_cognitive_matching`,
  `_execute_reconciliation_with_cognition`, `_calculate_u_theta_score`;
* `app/ram/adaptive_core/heuristic_memory.py` — `HeuristicEvolver.evolve_weights`;
* `app/services/ai_reconciliation.py` — `AIReconciliationService.intelligent_bank_reconciliation`,
  `_find_ai_matches`;
* `app/ram/cognitive_core/reasoning_engine.py` — `ReasoningLayer._generate_matching_rules`.

Python `Decimal`/`float` arithmetic is embedded as exact rational arithmetic (`ℚ`);
dates are embedded as integer day numbers, so that Python date subtraction
(`(a - b).days`) becomes integer subtraction.  Database rows become plain
structures; the queries the matching loop performs are embedded as explicit
list parameters (the candidate pool), reflecting exactly what the filters in
the source return.
-/

namespace CABackend

/-- A matching rule as consumed by `_apply_cognitive_matching`
(`rule.get("rule_type")`, `rule.get("weight", 1.0)`, `rule.get("tolerance", 0.02)`,
`rule.get("max_days", 3)`).  `max_days := none` embeds a rule dict that has no
`"max_days"` key, in which case the code falls back to the literal default 3. -/
structure MatchingRule where
  rule_type : String
  weight : ℚ := 1
  tolerance : ℚ := 2/100
  max_days : Option ℕ := none
  deriving Repr, DecidableEq

/-- A `BankStatement` row as read by `_apply_cognitive_matching`: transaction id,
amount, transaction date (day number) and cheque reference.  `cheque_ref := none`
embeds both SQL `NULL` and the empty string (both falsy in the Python guard). -/
structure BankStatementRec where
  bank_txn_id : String
  amount : ℚ
  txn_date : ℤ
  cheque_ref : Option String := none
  deriving Repr, DecidableEq

/-- The voucher dict handed to `_apply_cognitive_matching`
(`voucher_data.get("total_amount")`, `voucher_data.get("voucher_date")`,
`voucher_data.get("reference_number")`). -/
structure VoucherData where
  voucher_id : String
  total_amount : ℚ
  voucher_date : ℤ
  reference_number : Option String := none
  deriving Repr, DecidableEq

/-- Absolute calendar-day difference
`abs((candidate.txn_date - voucher_date.date()).days)`. -/
def dateDiff (v : VoucherData) (c : BankStatementRec) : ℤ :=
  |c.txn_date - v.voucher_date|

/-- The sub-score (match strength in `[0,1]`) a single rule produces for a
(voucher, candidate) pair, `none` when the rule's guard does not fire and the
rule contributes nothing.  Direct transcription of the four `rule_type`
branches of the inner loop of `_apply_cognitive_matching`
(`ram_service.py` lines 314–344). -/
def ruleScore (r : MatchingRule) (v : VoucherData) (c : BankStatementRec) : Option ℚ :=
  if r.rule_type = "amount_exact" then
    if |c.amount - v.total_amount| < 1/100 then some 1 else none
  else if r.rule_type = "amount_tolerance" then
    if |c.amount - v.total_amount| ≤ v.total_amount * r.tolerance then
      some (1 - |c.amount - v.total_amount| / (v.total_amount * r.tolerance))
    else none
  else if r.rule_type = "date_proximity" then
    if dateDiff v c ≤ ((r.max_days.getD 3 : ℕ) : ℤ) then
      some (1 - (dateDiff v c : ℚ) / ((r.max_days.getD 3 : ℕ) : ℚ))
    else none
  else if r.rule_type = "reference_match" then
    match v.reference_number, c.cheque_ref with
    | some ref, some chq =>
        if ref ≠ "" ∧ chq ≠ "" ∧ ref.toList <:+: chq.toList then some 1 else none
    | _, _ => none
  else none

/-- What one rule adds to the running `confidence` accumulator:
`rule_weight * match_strength` when the guard fires, `0` otherwise. -/
def ruleContribution (r : MatchingRule) (v : VoucherData) (c : BankStatementRec) : ℚ :=
  r.weight * (ruleScore r v c).getD 0

/-- The accumulated (un-normalised) `confidence` after the rule loop. -/
def rawConfidence (rules : List MatchingRule) (v : VoucherData) (c : BankStatementRec) : ℚ :=
  (rules.map (fun r => ruleContribution r v c)).sum

/-- `total_weight = sum(rule.get("weight", 1.0) for rule in matching_rules)` —
the sum runs over ALL configured rules, fired or not. -/
def totalWeight (rules : List MatchingRule) : ℚ :=
  (rules.map (fun r => r.weight)).sum

/-- The normalised composite confidence for one candidate:
`if total_weight > 0: confidence = confidence / float(total_weight)`
(`ram_service.py` lines 346–349). -/
def compositeConfidence (rules : List MatchingRule) (v : VoucherData)
    (c : BankStatementRec) : ℚ :=
  if 0 < totalWeight rules then rawConfidence rules v c / totalWeight rules
  else rawConfidence rules v c

/-- The best-candidate scan of `_apply_cognitive_matching`: starting from
`best_match = None`, `best_confidence = 0.0`, each candidate replaces the
running best exactly when its confidence is STRICTLY greater
(`if confidence > best_confidence`). -/
def selectBestGo (rules : List MatchingRule) (v : VoucherData) :
    Option BankStatementRec → ℚ → List BankStatementRec →
    Option BankStatementRec × ℚ
  | best, bc, [] => (best, bc)
  | best, bc, c :: rest =>
      let conf := compositeConfidence rules v c
      if bc < conf then selectBestGo rules v (some c) conf rest
      else selectBestGo rules v best bc rest

/-- Scan the whole candidate list, as the `for candidate in candidates` loop does. -/
def selectBest (rules : List MatchingRule) (v : VoucherData)
    (candidates : List BankStatementRec) : Option BankStatementRec × ℚ :=
  selectBestGo rules v none 0 candidates

/-- The three-way decision of `_apply_cognitive_matching` (lines 356–368). -/
inductive MatchOutcome where
  | Matched
  | NearMatch
  | Unmatched
  deriving Repr, DecidableEq

/-- Ordering Unmatched ≤ NearMatch ≤ Matched used to state monotonicity. -/
def outcomeRank : MatchOutcome → ℕ
  | .Unmatched => 0
  | .NearMatch => 1
  | .Matched => 2

/-- `confidence_threshold = strategy.get("confidence_threshold", 0.8)`. -/
def defaultConfidenceThreshold : ℚ := 8/10

/-- `near_match_threshold = strategy.get("near_match_threshold", 0.6)`. -/
def defaultNearMatchThreshold : ℚ := 6/10

/-- The decision classifier:
`if best_confidence >= confidence_threshold: ... elif best_confidence >= near_match_threshold: ... else: ...`. -/
def classify (matchThreshold nearThreshold conf : ℚ) : MatchOutcome :=
  if matchThreshold ≤ conf then .Matched
  else if nearThreshold ≤ conf then .NearMatch
  else .Unmatched

/-- The dict `_apply_cognitive_matching` returns for one voucher (the fields the
claims are about). -/
structure MatchDecision where
  voucher_id : String
  bank_statement_id : Option String
  confidence : ℚ
  outcome : MatchOutcome
  deriving Repr, DecidableEq

/-- One full `_apply_cognitive_matching` call for a single voucher against the
candidate pool its query returns. -/
def applyCognitiveMatching (rules : List MatchingRule) (matchThreshold nearThreshold : ℚ)
    (candidates : List BankStatementRec) (v : VoucherData) : MatchDecision :=
  let best := selectBest rules v candidates
  { voucher_id := v.voucher_id
    bank_statement_id := best.1.map (fun c => c.bank_txn_id)
    confidence := best.2
    outcome := classify matchThreshold nearThreshold best.2 }

/-- The per-voucher loop of `_execute_reconciliation_with_cognition`
(lines 230–261).  Every iteration calls `_apply_cognitive_matching`, whose
candidate query re-reads all bank statements with
`reconciliation_status == "Unmatched"`; no statement's status is ever written
inside the loop, so every voucher is scored against the same pool — the loop
is a plain map over the voucher list. -/
def executeReconciliation (rules : List MatchingRule) (matchThreshold nearThreshold : ℚ)
    (candidates : List BankStatementRec) (vouchers : List VoucherData) :
    List MatchDecision :=
  vouchers.map (applyCognitiveMatching rules matchThreshold nearThreshold candidates)

/-! ## `_calculate_u_theta_score` (`ram_service.py` lines 480–508) -/

/-- `U(θ)` utility score: the weighted score
`(matched*1.0 + near*0.7 + unmatched*0.0) / total` times the average
confidence, returned as `min(Decimal('1.0'), u_theta)`; `0` when the batch
is empty. -/
def calculateUThetaScore (successful near unmatched : ℕ) (avgConfidence : ℚ) : ℚ :=
  if successful + near + unmatched = 0 then 0
  else
    min 1 (((successful : ℚ) * 1 + (near : ℚ) * (7/10) + (unmatched : ℚ) * 0)
      / ((successful + near + unmatched : ℕ) : ℚ) * avgConfidence)

/-! ## `HeuristicEvolver.evolve_weights` (`heuristic_memory.py` lines 141–185) -/

/-- `self.learning_rate = Decimal('0.1')` (`HeuristicEvolver.__init__`). -/
def defaultLearningRate : ℚ := 1/10

/-- `self.success_threshold = Decimal('0.8')` (`HeuristicEvolver.__init__`). -/
def defaultSuccessThreshold : ℚ := 8/10

/-- The bound applied to every updated weight:
`max(Decimal('0.1'), min(Decimal('2.0'), current_weight.weight + weight_delta))`. -/
def clampWeight (x : ℚ) : ℚ := max (1/10) (min 2 x)

/-- One weight update of `evolve_weights` for one primitive: the
positive-reinforcement branch fires when `overall_success_score >
success_threshold` with `delta = learning_rate * (primitive_score - weight)`,
the negative branch computes `delta = -learning_rate * (weight -
primitive_score)`; the result is clamped to `[0.1, 2.0]`. -/
def evolveWeightStep (learningRate successThreshold weight primitiveScore overall : ℚ) : ℚ :=
  let delta :=
    if successThreshold < overall then learningRate * (primitiveScore - weight)
    else -(learningRate * (weight - primitiveScore))
  clampWeight (weight + delta)

/-- A finite sequence of feedback-driven updates applied to one dimension's
weight: each event carries the primitive's reported confidence and the overall
success score of that `evolve_weights` call. -/
def evolveWeightIter (learningRate successThreshold : ℚ) (w0 : ℚ)
    (events : List (ℚ × ℚ)) : ℚ :=
  events.foldl (fun w e => evolveWeightStep learningRate successThreshold w e.1 e.2) w0

/-! ## `AIReconciliationService` (`ai_reconciliation.py`) -/

/-- One parsed entry of the LLM's JSON answer (the fields
`intelligent_bank_reconciliation` consumes). -/
structure AIMatch where
  bank_record_id : String
  confidence_score : ℚ
  deriving Repr, DecidableEq

/-- The validation filter of `_find_ai_matches`: keep entries whose
`confidence_score` is a number in `[0.0, 1.0]`. -/
def validMatches (ms : List AIMatch) : List AIMatch :=
  ms.filter (fun m => 0 ≤ m.confidence_score ∧ m.confidence_score ≤ 1)

/-- `_find_ai_matches` with the LLM call embedded as the value of the oracle:
either a parsed list of matches, or any raised/parse error.  The
`except (json.JSONDecodeError, Exception)` handler turns every failure into
the empty match list (`return []`). -/
def findAIMatches (oracleResponse : Except String (List AIMatch)) : List AIMatch :=
  match oracleResponse with
  | .error _ => []
  | .ok ms => validMatches ms

/-- One entry of the list `intelligent_bank_reconciliation` returns. -/
structure ReconResult where
  voucher_id : String
  matched : Bool
  confidence : ℚ
  requires_review : Bool
  deriving Repr, DecidableEq

/-- The per-voucher loop of `intelligent_bank_reconciliation`: when
`_find_ai_matches` returns a non-empty list its head (`potential_matches[0]`)
becomes the decision (`requires_review` iff `confidence_score <= 0.85`);
when it returns the empty list — in particular after an oracle failure —
NO entry is appended for that voucher and the loop moves on. -/
def intelligentBankReconciliation (oracle : String → Except String (List AIMatch))
    (voucherIds : List String) : List ReconResult :=
  voucherIds.filterMap (fun vid =>
    match findAIMatches (oracle vid) with
    | [] => none
    | best :: _ =>
        some { voucher_id := vid
               matched := true
               confidence := best.confidence_score
               requires_review := best.confidence_score ≤ 85/100 })

/-! ## Spec-side comparison definitions

These two definitions follow the SPEC's words (refinement targets), to be
compared against the source-derived definitions above. -/

/-- Modelled from the spec (§4.3 Match Composer): composite is the weighted
average taken over exactly the dimensions that produced a score:
`Σ(sub_score.value × weight[dimension]) / Σ(weight[dimension])` with both sums
restricted to the rules whose scorer fired. -/
def specComposite (rules : List MatchingRule) (v : VoucherData)
    (c : BankStatementRec) : ℚ :=
  let fired := rules.filter (fun r => (ruleScore r v c).isSome)
  (fired.map (fun r => r.weight * (ruleScore r v c).getD 0)).sum /
    (fired.map (fun r => r.weight)).sum

/-- Modelled from the spec (§4.2 Date-Proximity scorer):
`value = max(0, 1 − days_diff / max_days)` with `max_days` default 7. -/
def specDateProximity (daysDiff : ℕ) (maxDays : ℕ := 7) : ℚ :=
  max 0 (1 - (daysDiff : ℚ) / (maxDays : ℚ))

/-! ## Helper lemmas -/

/-- Every sub-score a rule produces lies in `[0,1]`. -/
theorem ruleScore_bounds (r : MatchingRule) (v : VoucherData) (c : BankStatementRec)
    (s : ℚ) (h : ruleScore r v c = some s) : 0 ≤ s ∧ s ≤ 1 := by
  have habs : (0:ℚ) ≤ |c.amount - v.total_amount| := abs_nonneg _
  have hdd : (0:ℤ) ≤ dateDiff v c := abs_nonneg _
  unfold ruleScore at h
  split_ifs at h with h1 h2 h3 h4 h5 h6
  · obtain rfl : (1 : ℚ) = s := Option.some.inj h
    norm_num
  · obtain rfl : (1 : ℚ) - |c.amount - v.total_amount| / (v.total_amount * r.tolerance) = s :=
      Option.some.inj h
    rcases lt_trichotomy 0 (v.total_amount * r.tolerance) with hT | hT | hT
    · constructor
      · have : |c.amount - v.total_amount| / (v.total_amount * r.tolerance) ≤ 1 :=
          (div_le_one hT).2 h4
        linarith
      · have : 0 ≤ |c.amount - v.total_amount| / (v.total_amount * r.tolerance) :=
          div_nonneg habs (le_of_lt hT)
        linarith
    · rw [← hT, div_zero]
      norm_num
    · exact absurd (le_trans habs h4) (not_le.2 hT)
  · obtain rfl : (1 : ℚ) - (dateDiff v c : ℚ) / ((r.max_days.getD 3 : ℕ) : ℚ) = s :=
      Option.some.inj h
    rcases Nat.eq_zero_or_pos (r.max_days.getD 3) with hm | hm
    · have : dateDiff v c = 0 := le_antisymm (by simpa [hm] using h6) hdd
      rw [this, hm]
      norm_num
    · have hmq : (0:ℚ) < ((r.max_days.getD 3 : ℕ) : ℚ) := by exact_mod_cast hm
      have hdq : ((dateDiff v c : ℤ) : ℚ) ≤ ((r.max_days.getD 3 : ℕ) : ℚ) := by
        exact_mod_cast h6
      have hdq0 : (0:ℚ) ≤ ((dateDiff v c : ℤ) : ℚ) := by exact_mod_cast hdd
      constructor
      · have : ((dateDiff v c : ℤ) : ℚ) / ((r.max_days.getD 3 : ℕ) : ℚ) ≤ 1 :=
          (div_le_one hmq).2 hdq
        linarith
      · have : 0 ≤ ((dateDiff v c : ℤ) : ℚ) / ((r.max_days.getD 3 : ℕ) : ℚ) :=
          div_nonneg hdq0 (le_of_lt hmq)
        linarith
  · revert h
    split <;> intro h
    · split_ifs at h with h7
      obtain rfl : (1 : ℚ) = s := Option.some.inj h
      norm_num
    · exact absurd h (by simp)

/-- A rule's contribution to the raw confidence is at least `0` when its
weight is. -/
theorem ruleContribution_nonneg (r : MatchingRule) (v : VoucherData)
    (c : BankStatementRec) (hw : 0 ≤ r.weight) : 0 ≤ ruleContribution r v c := by
  unfold ruleContribution
  apply mul_nonneg hw
  cases hs : ruleScore r v c with
  | none => simp
  | some s => simpa using (ruleScore_bounds r v c s hs).1

/-- A rule's contribution to the raw confidence never exceeds its weight. -/
theorem ruleContribution_le_weight (r : MatchingRule) (v : VoucherData)
    (c : BankStatementRec) (hw : 0 ≤ r.weight) : ruleContribution r v c ≤ r.weight := by
  unfold ruleContribution
  have hx : (ruleScore r v c).getD 0 ≤ 1 := by
    cases hs : ruleScore r v c with
    | none => simp
    | some s => simpa using (ruleScore_bounds r v c s hs).2
  calc r.weight * (ruleScore r v c).getD 0 ≤ r.weight * 1 :=
        mul_le_mul_of_nonneg_left hx hw
    _ = r.weight := mul_one _

/-- The raw accumulated confidence is non-negative for non-negative weights. -/
theorem rawConfidence_nonneg (rules : List MatchingRule) (v : VoucherData)
    (c : BankStatementRec) (hw : ∀ r ∈ rules, 0 ≤ r.weight) :
    0 ≤ rawConfidence rules v c := by
  apply List.sum_nonneg
  intro x hx
  rcases List.mem_map.1 hx with ⟨r, hr, rfl⟩
  exact ruleContribution_nonneg r v c (hw r hr)

/-- The raw accumulated confidence is bounded by the total weight. -/
theorem rawConfidence_le_totalWeight (rules : List MatchingRule) (v : VoucherData)
    (c : BankStatementRec) (hw : ∀ r ∈ rules, 0 ≤ r.weight) :
    rawConfidence rules v c ≤ totalWeight rules := by
  unfold rawConfidence totalWeight
  apply List.sum_le_sum
  intro r hr
  exact ruleContribution_le_weight r v c (hw r hr)

/-- Every clamped weight lies in `[0.1, 2.0]`. -/
theorem clampWeight_bounds (x : ℚ) : 1/10 ≤ clampWeight x ∧ clampWeight x ≤ 2 := by
  unfold clampWeight
  exact ⟨le_max_left _ _, max_le (by norm_num) (min_le_left _ _)⟩

/-- The rule scorers read a voucher only through its amount, date and
reference number — never through its id. -/
theorem ruleScore_congr (r : MatchingRule) (v1 v2 : VoucherData) (c : BankStatementRec)
    (h1 : v1.total_amount = v2.total_amount) (h2 : v1.voucher_date = v2.voucher_date)
    (h3 : v1.reference_number = v2.reference_number) :
    ruleScore r v1 c = ruleScore r v2 c := by
  unfold ruleScore dateDiff
  rw [h1, h2, h3]

/-- Composite confidence depends on the voucher only through its amount, date
and reference number. -/
theorem compositeConfidence_congr (rules : List MatchingRule) (v1 v2 : VoucherData)
    (c : BankStatementRec) (h1 : v1.total_amount = v2.total_amount)
    (h2 : v1.voucher_date = v2.voucher_date)
    (h3 : v1.reference_number = v2.reference_number) :
    compositeConfidence rules v1 c = compositeConfidence rules v2 c := by
  have hc : ∀ r : MatchingRule, ruleContribution r v1 c = ruleContribution r v2 c := by
    intro r
    unfold ruleContribution
    rw [ruleScore_congr r v1 v2 c h1 h2 h3]
  unfold compositeConfidence rawConfidence
  rw [show (rules.map fun r => ruleContribution r v1 c)
        = (rules.map fun r => ruleContribution r v2 c) from
      List.map_congr_left (fun r _ => hc r)]

/-- The best-candidate scan depends on the voucher only through its amount,
date and reference number. -/
theorem selectBestGo_congr (rules : List MatchingRule) (v1 v2 : VoucherData)
    (h1 : v1.total_amount = v2.total_amount) (h2 : v1.voucher_date = v2.voucher_date)
    (h3 : v1.reference_number = v2.reference_number) :
    ∀ (pool : List BankStatementRec) (best : Option BankStatementRec) (bc : ℚ),
      selectBestGo rules v1 best bc pool = selectBestGo rules v2 best bc pool := by
  intro pool
  induction pool with
  | nil => intro best bc; rfl
  | cons c rest ih =>
      intro best bc
      simp only [selectBestGo, compositeConfidence_congr rules v1 v2 c h1 h2 h3]
      split_ifs <;> exact ih _ _

/-- Full characterization of the best-candidate scan: starting from a running
best of `bc`, either no candidate strictly beats `bc` and the accumulator is
returned unchanged, or the scan returns the FIRST candidate attaining the
maximum composite: every earlier candidate scores strictly lower and every
later candidate scores no higher. -/
theorem selectBestGo_spec (rules : List MatchingRule) (v : VoucherData) :
    ∀ (pool : List BankStatementRec) (best : Option BankStatementRec) (bc : ℚ),
      (selectBestGo rules v best bc pool = (best, bc) ∧
        ∀ c ∈ pool, compositeConfidence rules v c ≤ bc) ∨
      (∃ l1 b l2, pool = l1 ++ b :: l2 ∧
        selectBestGo rules v best bc pool = (some b, compositeConfidence rules v b) ∧
        bc < compositeConfidence rules v b ∧
        (∀ c ∈ l1, compositeConfidence rules v c < compositeConfidence rules v b) ∧
        ∀ c ∈ l2, compositeConfidence rules v c ≤ compositeConfidence rules v b) := by
  intro pool
  induction pool with
  | nil =>
      intro best bc
      left
      exact ⟨rfl, by simp⟩
  | cons c rest ih =>
      intro best bc
      by_cases hlt : bc < compositeConfidence rules v c
      · rcases ih (some c) (compositeConfidence rules v c) with ⟨heq, hall⟩ |
          ⟨l1, b, l2, hsplit, heq, hgt, hl1, hl2⟩
        · right
          refine ⟨[], c, rest, by simp, ?_, hlt, by simp, hall⟩
          simpa [selectBestGo, hlt] using heq
        · right
          refine ⟨c :: l1, b, l2, by simp [hsplit], ?_, lt_trans hlt hgt, ?_, hl2⟩
          · simpa [selectBestGo, hlt] using heq
          · intro x hx
            rcases List.mem_cons.1 hx with rfl | hx
            · exact hgt
            · exact hl1 x hx
      · rcases ih best bc with ⟨heq, hall⟩ | ⟨l1, b, l2, hsplit, heq, hgt, hl1, hl2⟩
        · left
          refine ⟨by simpa [selectBestGo, hlt] using heq, ?_⟩
          intro x hx
          rcases List.mem_cons.1 hx with rfl | hx
          · exact not_lt.1 hlt
          · exact hall x hx
        · right
          refine ⟨c :: l1, b, l2, by simp [hsplit], ?_, hgt, ?_, hl2⟩
          · simpa [selectBestGo, hlt] using heq
          · intro x hx
            rcases List.mem_cons.1 hx with rfl | hx
            · exact lt_of_le_of_lt (not_lt.1 hlt) hgt
            · exact hl1 x hx

/-- Replacing an erroring oracle answer by an empty successful answer does not
change the reconciliation output: the error handler of `_find_ai_matches`
is exactly `return []`. -/
theorem intelligentBankReconciliation_error_congr
    (oracle : String → Except String (List AIMatch)) (vs : List String)
    (vid : String) (e : String) (h : oracle vid = Except.error e) :
    intelligentBankReconciliation oracle vs =
      intelligentBankReconciliation
        (fun s => if s = vid then Except.ok [] else oracle s) vs := by
  unfold intelligentBankReconciliation
  apply List.filterMap_congr
  intro a _
  by_cases ha : a = vid
  · subst ha
    rw [h]
    simp [findAIMatches, validMatches]
  · simp [ha]

/-! ## Claim theorems -/

/-- Claim C1, counterexample: two vouchers with the same amount, matched in the
same batch against a one-element target pool, BOTH receive outcome `Matched`
referencing the same target `T1` — the first `Matched` outcome does not remove
the target from the pool offered to the second voucher. -/
theorem c1_counterexample :
    (executeReconciliation [{ rule_type := "amount_exact", weight := 1 }]
        defaultConfidenceThreshold defaultNearMatchThreshold
        [{ bank_txn_id := "T1", amount := 100, txn_date := 0 }]
        [{ voucher_id := "VA", total_amount := 100, voucher_date := 0 },
         { voucher_id := "VB", total_amount := 100, voucher_date := 0 }]).map
      (fun d => (d.bank_statement_id, d.outcome)) =
    [(some "T1", .Matched), (some "T1", .Matched)] := by
  norm_num [executeReconciliation, applyCognitiveMatching, selectBest, selectBestGo,
    compositeConfidence, rawConfidence, totalWeight, ruleContribution, ruleScore,
    classify, defaultConfidenceThreshold, defaultNearMatchThreshold, dateDiff]

/-- Claim C1, amended: the candidate pool is NOT reduced by earlier `Matched`
outcomes.  Each voucher of a batch is scored against the same full pool, so
a second voucher that agrees with the first on every field the scorers read
receives exactly the same target and outcome — including a repeated `Matched`
on an already-consumed target. -/
theorem c1_pool_not_consumed (rules : List MatchingRule) (tm nm : ℚ)
    (pool : List BankStatementRec) (v1 v2 : VoucherData)
    (h1 : v1.total_amount = v2.total_amount) (h2 : v1.voucher_date = v2.voucher_date)
    (h3 : v1.reference_number = v2.reference_number) :
    executeReconciliation rules tm nm pool [v1, v2]
      = [applyCognitiveMatching rules tm nm pool v1,
         applyCognitiveMatching rules tm nm pool v2] ∧
    (applyCognitiveMatching rules tm nm pool v1).bank_statement_id
      = (applyCognitiveMatching rules tm nm pool v2).bank_statement_id ∧
    (applyCognitiveMatching rules tm nm pool v1).outcome
      = (applyCognitiveMatching rules tm nm pool v2).outcome := by
  have hsel : selectBest rules v1 pool = selectBest rules v2 pool :=
    selectBestGo_congr rules v1 v2 h1 h2 h3 pool none 0
  refine ⟨rfl, ?_, ?_⟩ <;>
    simp [applyCognitiveMatching, hsel]

/-- Claim C1 witness: the amended statement applied to two concrete vouchers
that differ only in their id. -/
theorem c1_witness :
    executeReconciliation [{ rule_type := "amount_exact", weight := 1 }] (8/10) (6/10)
        [{ bank_txn_id := "T1", amount := 100, txn_date := 0 }]
        [{ voucher_id := "VA", total_amount := 100, voucher_date := 0 },
         { voucher_id := "VB", total_amount := 100, voucher_date := 0 }]
      = [applyCognitiveMatching [{ rule_type := "amount_exact", weight := 1 }] (8/10) (6/10)
          [{ bank_txn_id := "T1", amount := 100, txn_date := 0 }]
          { voucher_id := "VA", total_amount := 100, voucher_date := 0 },
         applyCognitiveMatching [{ rule_type := "amount_exact", weight := 1 }] (8/10) (6/10)
          [{ bank_txn_id := "T1", amount := 100, txn_date := 0 }]
          { voucher_id := "VB", total_amount := 100, voucher_date := 0 }] ∧
    (applyCognitiveMatching [{ rule_type := "amount_exact", weight := 1 }] (8/10) (6/10)
        [{ bank_txn_id := "T1", amount := 100, txn_date := 0 }]
        { voucher_id := "VA", total_amount := 100, voucher_date := 0 }).bank_statement_id
      = (applyCognitiveMatching [{ rule_type := "amount_exact", weight := 1 }] (8/10) (6/10)
          [{ bank_txn_id := "T1", amount := 100, txn_date := 0 }]
          { voucher_id := "VB", total_amount := 100, voucher_date := 0 }).bank_statement_id ∧
    (applyCognitiveMatching [{ rule_type := "amount_exact", weight := 1 }] (8/10) (6/10)
        [{ bank_txn_id := "T1", amount := 100, txn_date := 0 }]
        { voucher_id := "VA", total_amount := 100, voucher_date := 0 }).outcome
      = (applyCognitiveMatching [{ rule_type := "amount_exact", weight := 1 }] (8/10) (6/10)
          [{ bank_txn_id := "T1", amount := 100, txn_date := 0 }]
          { voucher_id := "VB", total_amount := 100, voucher_date := 0 }).outcome :=
  c1_pool_not_consumed [{ rule_type := "amount_exact", weight := 1 }] (8/10) (6/10)
    [{ bank_txn_id := "T1", amount := 100, txn_date := 0 }]
    { voucher_id := "VA", total_amount := 100, voucher_date := 0 }
    { voucher_id := "VB", total_amount := 100, voucher_date := 0 }
    rfl rfl rfl

/-- Claim C2, counterexample: the code default for the match threshold is
`0.8`, not the claimed `0.85`: the composite score `0.82` — which the claim
classifies as NearMatch (`0.60 ≤ 0.82 < 0.85`) — is classified `Matched` by
the code under its defaults. -/
theorem c2_counterexample :
    defaultConfidenceThreshold ≠ 85/100 ∧
    classify defaultConfidenceThreshold defaultNearMatchThreshold (82/100) = .Matched ∧
    (60/100 : ℚ) ≤ 82/100 ∧ (82/100 : ℚ) < 85/100 := by
  refine ⟨by norm_num [defaultConfidenceThreshold], ?_, by norm_num, by norm_num⟩
  norm_num [classify, defaultConfidenceThreshold, defaultNearMatchThreshold]

/-- Claim C2, amended: the decision is a pure function of the composite score
and two thresholds whose code defaults are `confidence_threshold = 0.8` and
`near_match_threshold = 0.6` (not 0.85/0.60): at those defaults, score ≥ 0.8
yields Matched, 0.6 ≤ score < 0.8 yields NearMatch, and score < 0.6 yields
Unmatched; the outcome recorded by `_apply_cognitive_matching` is exactly this
classification of the recorded best confidence. -/
theorem c2_classifier_defaults (rules : List MatchingRule) (pool : List BankStatementRec)
    (v : VoucherData) (score : ℚ) :
    defaultConfidenceThreshold = 8/10 ∧ defaultNearMatchThreshold = 6/10 ∧
    (applyCognitiveMatching rules defaultConfidenceThreshold defaultNearMatchThreshold
        pool v).outcome
      = classify defaultConfidenceThreshold defaultNearMatchThreshold
          (applyCognitiveMatching rules defaultConfidenceThreshold
            defaultNearMatchThreshold pool v).confidence ∧
    (classify defaultConfidenceThreshold defaultNearMatchThreshold score = .Matched ↔
      8/10 ≤ score) ∧
    (classify defaultConfidenceThreshold defaultNearMatchThreshold score = .NearMatch ↔
      6/10 ≤ score ∧ score < 8/10) ∧
    (classify defaultConfidenceThreshold defaultNearMatchThreshold score = .Unmatched ↔
      score < 6/10) := by
  refine ⟨rfl, rfl, rfl, ?_, ?_, ?_⟩ <;>
    · unfold classify defaultConfidenceThreshold defaultNearMatchThreshold
      split_ifs <;> simp_all <;> linarith

/-- Claim C3 (confirmed): classification is monotone in the composite score
for every threshold pair, in the ordering Unmatched ≤ NearMatch ≤ Matched. -/
theorem c3_threshold_monotonicity (tm nm c1 c2 : ℚ) (h : c1 < c2) :
    outcomeRank (classify tm nm c1) ≤ outcomeRank (classify tm nm c2) := by
  unfold classify
  split_ifs <;> simp [outcomeRank] <;> linarith

/-- Claim C3 witness at concrete scores 0.5 < 0.9 and the default thresholds. -/
theorem c3_witness :
    (1/2 : ℚ) < 9/10 ∧
    outcomeRank (classify (8/10) (6/10) (1/2)) ≤ outcomeRank (classify (8/10) (6/10) (9/10)) :=
  ⟨by norm_num, c3_threshold_monotonicity (8/10) (6/10) (1/2) (9/10) (by norm_num)⟩

/-- Claim C4 (confirmed): starting from a weight in `[0.1, 2.0]`, any finite
sequence of `evolve_weights` updates keeps the weight in `[0.1, 2.0]` — every
update is clamped into the interval. -/
theorem c4_weight_bounds (lr st w0 : ℚ) (events : List (ℚ × ℚ))
    (h1 : 1/10 ≤ w0) (h2 : w0 ≤ 2) :
    1/10 ≤ evolveWeightIter lr st w0 events ∧ evolveWeightIter lr st w0 events ≤ 2 := by
  induction events generalizing w0 with
  | nil => exact ⟨h1, h2⟩
  | cons e es ih =>
      have hstep := clampWeight_bounds
        (w0 + if st < e.2 then lr * (e.1 - w0) else -(lr * (w0 - e.1)))
      exact ih _ hstep.1 hstep.2

/-- Claim C4 witness: three concrete feedback events starting from weight 1.0. -/
theorem c4_witness :
    (1/10 : ℚ) ≤ 1 ∧ (1 : ℚ) ≤ 2 ∧
    (1/10 ≤ evolveWeightIter defaultLearningRate defaultSuccessThreshold 1
        [(1/2, 9/10), (1, 1/2), (0, 9/10)] ∧
      evolveWeightIter defaultLearningRate defaultSuccessThreshold 1
        [(1/2, 9/10), (1, 1/2), (0, 9/10)] ≤ 2) :=
  ⟨by norm_num, by norm_num,
    c4_weight_bounds defaultLearningRate defaultSuccessThreshold 1
      [(1/2, 9/10), (1, 1/2), (0, 9/10)] (by norm_num) (by norm_num)⟩

/-- Claim C5, counterexample: the claimed update
`clamp(old + lr × sign(signal) × contribution)` adds, for one fixed feedback
event, a delta independent of the old weight.  The code does not: for the
same event (primitive confidence 0.5, overall success 0.9) the weight 1
moves by −0.05 while the weight 0.2 moves by +0.03 — no single delta fits
both, so the claimed formula (and a fortiori its `1/√(sample_count)` decay)
is not what `evolve_weights` computes. -/
theorem c5_counterexample :
    ¬ ∃ d : ℚ,
      evolveWeightStep defaultLearningRate defaultSuccessThreshold 1 (1/2) (9/10)
          = 1 + d ∧
      evolveWeightStep defaultLearningRate defaultSuccessThreshold (1/5) (1/2) (9/10)
          = 1/5 + d := by
  rintro ⟨d, hA, hB⟩
  rw [show evolveWeightStep defaultLearningRate defaultSuccessThreshold 1 (1/2) (9/10)
        = 19/20 by
      norm_num [evolveWeightStep, clampWeight, defaultLearningRate,
        defaultSuccessThreshold]] at hA
  rw [show evolveWeightStep defaultLearningRate defaultSuccessThreshold (1/5) (1/2) (9/10)
        = 23/100 by
      norm_num [evolveWeightStep, clampWeight, defaultLearningRate,
        defaultSuccessThreshold]] at hB
  have hd1 : d = 19/20 - 1 := by linarith
  have hd2 : d = 23/100 - 1/5 := by linarith
  rw [hd1] at hd2
  norm_num at hd2

/-- Claim C5, amended: each update computes
`new = clamp(old + 0.1 × (primitive_confidence − old), 0.1, 2.0)`: a pull of
the weight toward the primitive's reported confidence.  The positive- and
negative-reinforcement branches compute the identical delta, the learning
rate is the constant 0.1 from `HeuristicEvolver.__init__`, and no
`1/√(sample_count)` decay is applied anywhere. -/
theorem c5_weight_update_formula (w s o : ℚ) :
    evolveWeightStep defaultLearningRate defaultSuccessThreshold w s o
      = clampWeight (w + defaultLearningRate * (s - w)) ∧
    defaultLearningRate = 1/10 := by
  refine ⟨?_, rfl⟩
  unfold evolveWeightStep
  have hdelta : -(defaultLearningRate * (w - s)) = defaultLearningRate * (s - w) := by ring
  split_ifs
  · rfl
  · show clampWeight (w + -(defaultLearningRate * (w - s)))
        = clampWeight (w + defaultLearningRate * (s - w))
    rw [hdelta]

/-- Claim C6, counterexample: with rules amount-exact (weight 1) and
date-proximity (weight 1), a pair with equal amounts but dates 10 days apart
fires only the amount rule; the code divides by the TOTAL weight 2 of all
configured rules, giving composite 1/2, while the spec's weighted average over
the dimensions that produced a score gives 1/1 = 1. -/
theorem c6_counterexample :
    compositeConfidence
        [{ rule_type := "amount_exact", weight := 1 },
         { rule_type := "date_proximity", weight := 1 }]
        { voucher_id := "V6", total_amount := 100, voucher_date := 0 }
        { bank_txn_id := "T6", amount := 100, txn_date := 10 } = 1/2 ∧
    specComposite
        [{ rule_type := "amount_exact", weight := 1 },
         { rule_type := "date_proximity", weight := 1 }]
        { voucher_id := "V6", total_amount := 100, voucher_date := 0 }
        { bank_txn_id := "T6", amount := 100, txn_date := 10 } = 1 ∧
    (1/2 : ℚ) ≠ 1 := by
  refine ⟨?_, ?_, by norm_num⟩
  · simp [compositeConfidence, rawConfidence, totalWeight, ruleContribution, ruleScore,
      dateDiff]
    norm_num
  · simp [specComposite, List.filter, ruleScore, dateDiff]

/-- Claim C6, amended: the composite equals the sum of fired contributions
divided by the total weight of ALL configured rules (not only the scoring
dimensions) whenever that total is positive, and it still lies in `[0,1]`
for non-negative rule weights. -/
theorem c6_composite_bounds (rules : List MatchingRule) (v : VoucherData)
    (c : BankStatementRec) (hw : ∀ r ∈ rules, 0 ≤ r.weight) :
    0 ≤ compositeConfidence rules v c ∧ compositeConfidence rules v c ≤ 1 ∧
    (0 < totalWeight rules →
      compositeConfidence rules v c = rawConfidence rules v c / totalWeight rules) := by
  have hraw0 := rawConfidence_nonneg rules v c hw
  have hrawT := rawConfidence_le_totalWeight rules v c hw
  unfold compositeConfidence
  split_ifs with ht
  · exact ⟨div_nonneg hraw0 (le_of_lt ht), (div_le_one ht).2 hrawT, fun _ => rfl⟩
  · refine ⟨hraw0, le_trans hrawT (le_trans (not_lt.1 ht) (by norm_num)), fun h => absurd h ht⟩

/-- Claim C6 witness: the amended bounds at a concrete two-rule configuration. -/
theorem c6_witness :
    (∀ r ∈ [({ rule_type := "amount_exact", weight := 1 } : MatchingRule),
            { rule_type := "date_proximity", weight := 1 }], 0 ≤ r.weight) ∧
    (0 ≤ compositeConfidence
        [{ rule_type := "amount_exact", weight := 1 },
         { rule_type := "date_proximity", weight := 1 }]
        { voucher_id := "V0", total_amount := 50, voucher_date := 0 }
        { bank_txn_id := "T0", amount := 50, txn_date := 2 } ∧
      compositeConfidence
        [{ rule_type := "amount_exact", weight := 1 },
         { rule_type := "date_proximity", weight := 1 }]
        { voucher_id := "V0", total_amount := 50, voucher_date := 0 }
        { bank_txn_id := "T0", amount := 50, txn_date := 2 } ≤ 1 ∧
      (0 < totalWeight
          [({ rule_type := "amount_exact", weight := 1 } : MatchingRule),
           { rule_type := "date_proximity", weight := 1 }] →
        compositeConfidence
            [{ rule_type := "amount_exact", weight := 1 },
             { rule_type := "date_proximity", weight := 1 }]
            { voucher_id := "V0", total_amount := 50, voucher_date := 0 }
            { bank_txn_id := "T0", amount := 50, txn_date := 2 }
          = rawConfidence
              [{ rule_type := "amount_exact", weight := 1 },
               { rule_type := "date_proximity", weight := 1 }]
              { voucher_id := "V0", total_amount := 50, voucher_date := 0 }
              { bank_txn_id := "T0", amount := 50, txn_date := 2 }
            / totalWeight
                [({ rule_type := "amount_exact", weight := 1 } : MatchingRule),
                 { rule_type := "date_proximity", weight := 1 }])) := by
  have hw : ∀ r ∈ [({ rule_type := "amount_exact", weight := 1 } : MatchingRule),
      { rule_type := "date_proximity", weight := 1 }], 0 ≤ r.weight := by
    intro r hr
    fin_cases hr <;> norm_num
  exact ⟨hw, c6_composite_bounds _ _ _ hw⟩

/-- Claim C7, counterexample: two candidates tie at composite 1, and the code
selects the FIRST one in list order (`T9`, date difference 5) although the
other (`T1`) has the smaller date difference (1) and the lexicographically
smaller id — the claimed smallest-date-difference / lowest-id tie-break does
not exist. -/
theorem c7_counterexample :
    (applyCognitiveMatching [{ rule_type := "amount_exact", weight := 1 }] (8/10) (6/10)
        [{ bank_txn_id := "T9", amount := 100, txn_date := 5 },
         { bank_txn_id := "T1", amount := 100, txn_date := 1 }]
        { voucher_id := "V7", total_amount := 100, voucher_date := 0 }).bank_statement_id
      = some "T9" ∧
    compositeConfidence [{ rule_type := "amount_exact", weight := 1 }]
        { voucher_id := "V7", total_amount := 100, voucher_date := 0 }
        { bank_txn_id := "T9", amount := 100, txn_date := 5 }
      = compositeConfidence [{ rule_type := "amount_exact", weight := 1 }]
          { voucher_id := "V7", total_amount := 100, voucher_date := 0 }
          { bank_txn_id := "T1", amount := 100, txn_date := 1 } ∧
    dateDiff { voucher_id := "V7", total_amount := 100, voucher_date := 0 }
        { bank_txn_id := "T1", amount := 100, txn_date := 1 }
      < dateDiff { voucher_id := "V7", total_amount := 100, voucher_date := 0 }
          { bank_txn_id := "T9", amount := 100, txn_date := 5 } := by
  refine ⟨?_, ?_, ?_⟩
  · simp [applyCognitiveMatching, selectBest, selectBestGo, compositeConfidence,
      rawConfidence, totalWeight, ruleContribution, ruleScore, dateDiff]
  · simp [compositeConfidence, rawConfidence, totalWeight, ruleContribution, ruleScore,
      dateDiff]
  · norm_num [dateDiff]

/-- Claim C7, amended: selection is deterministic for a fixed candidate-list
order, and is characterized as: if some candidate has positive composite, the
scan returns the FIRST candidate attaining the maximum composite (earlier
candidates score strictly lower, later ones no higher) — ties are broken by
list position, not by date difference or target id; if every composite is
≤ 0, no candidate is selected and the recorded confidence is 0. -/
theorem c7_selection_characterization (rules : List MatchingRule) (v : VoucherData)
    (pool : List BankStatementRec) :
    (selectBest rules v pool = (none, 0) ∧
      ∀ c ∈ pool, compositeConfidence rules v c ≤ 0) ∨
    (∃ l1 b l2, pool = l1 ++ b :: l2 ∧
      selectBest rules v pool = (some b, compositeConfidence rules v b) ∧
      0 < compositeConfidence rules v b ∧
      (∀ c ∈ l1, compositeConfidence rules v c < compositeConfidence rules v b) ∧
      ∀ c ∈ l2, compositeConfidence rules v c ≤ compositeConfidence rules v b) :=
  selectBestGo_spec rules v pool none 0

/-- Claim C8, counterexample: when the oracle call fails, the batch produces
NO decision at all for the affected voucher — the result list is empty, with
no rule-based fallback score, refuting "an oracle failure never prevents a
decision from being produced for that record". -/
theorem c8_counterexample :
    intelligentBankReconciliation (fun _ => Except.error "LLM timeout") ["V1"] = [] := by
  simp [intelligentBankReconciliation, findAIMatches]

/-- Claim C8, amended: an oracle failure is caught locally (`_find_ai_matches`
returns `[]`) and the batch continues — replacing the failing answer by an
empty successful answer changes nothing — but the failing voucher gets no
decision and no rule-based fallback: no entry of the output refers to it. -/
theorem c8_oracle_failure_no_decision (oracle : String → Except String (List AIMatch))
    (vs : List String) (vid : String) (e : String)
    (h : oracle vid = Except.error e) :
    (∀ r ∈ intelligentBankReconciliation oracle vs, r.voucher_id ≠ vid) ∧
    intelligentBankReconciliation oracle vs =
      intelligentBankReconciliation
        (fun s => if s = vid then Except.ok [] else oracle s) vs := by
  constructor
  · intro r hr hrid
    rcases List.mem_filterMap.1 hr with ⟨a, _, hf⟩
    by_cases hav : a = vid
    · subst hav
      rw [h] at hf
      simp [findAIMatches] at hf
    · apply hav
      cases hm : findAIMatches (oracle a) with
      | nil =>
          rw [hm] at hf
          exact absurd hf (by simp)
      | cons best rest =>
          rw [hm] at hf
          simp only [Option.some.injEq] at hf
          rw [← hf] at hrid
          exact hrid
  · exact intelligentBankReconciliation_error_congr oracle vs vid e h

/-- Claim C8 witness: a two-voucher batch where the oracle fails on `V1` and
succeeds on `V2`. -/
theorem c8_witness :
    (∀ r ∈ intelligentBankReconciliation
        (fun s => if s = "V1" then Except.error "LLM timeout"
          else Except.ok [{ bank_record_id := "B1", confidence_score := 9/10 }])
        ["V1", "V2"], r.voucher_id ≠ "V1") ∧
    intelligentBankReconciliation
        (fun s => if s = "V1" then Except.error "LLM timeout"
          else Except.ok [{ bank_record_id := "B1", confidence_score := 9/10 }])
        ["V1", "V2"] =
      intelligentBankReconciliation
        (fun s => if s = "V1" then Except.ok []
          else if s = "V1" then Except.error "LLM timeout"
            else Except.ok [{ bank_record_id := "B1", confidence_score := 9/10 }])
        ["V1", "V2"] :=
  c8_oracle_failure_no_decision
    (fun s => if s = "V1" then Except.error "LLM timeout"
      else Except.ok [{ bank_record_id := "B1", confidence_score := 9/10 }])
    ["V1", "V2"] "V1" "LLM timeout" (by simp)

/-- Claim C9, counterexample: for a date-proximity rule with no configured
`max_days`, a 4-day difference scores 0 in the code (default `max_days` is 3,
from `rule.get("max_days", 3)`), while the claimed formula with default 7
gives `max(0, 1 − 4/7) = 3/7 ≠ 0`. -/
theorem c9_counterexample :
    ruleContribution { rule_type := "date_proximity", weight := 1 }
        { voucher_id := "VD", total_amount := 100, voucher_date := 0 }
        { bank_txn_id := "TD", amount := 500, txn_date := 4 } = 0 ∧
    specDateProximity 4 = 3/7 ∧ (3/7 : ℚ) ≠ 0 := by
  refine ⟨?_, ?_, by norm_num⟩
  · simp [ruleContribution, ruleScore, dateDiff]
  · norm_num [specDateProximity]

/-- Claim C9, amended: the date-proximity contribution equals
`weight × max(0, 1 − days_diff / max_days)` with `days_diff` the absolute
day difference, but `max_days` defaults to 3, not 7, when the rule dict has
no `max_days` key (the strategy generator's `max_days_difference: 7` entry is
written under a key the matcher never reads). -/
theorem c9_date_proximity (r : MatchingRule) (v : VoucherData) (c : BankStatementRec)
    (hr : r.rule_type = "date_proximity") (hm : 0 < r.max_days.getD 3) :
    ruleContribution r v c
      = r.weight * max 0 (1 - (dateDiff v c : ℚ) / ((r.max_days.getD 3 : ℕ) : ℚ)) ∧
    (r.max_days = none → r.max_days.getD 3 = 3) := by
  refine ⟨?_, fun h => by rw [h]; rfl⟩
  have hmq : (0:ℚ) < ((r.max_days.getD 3 : ℕ) : ℚ) := by exact_mod_cast hm
  rcases le_or_lt (dateDiff v c) ((r.max_days.getD 3 : ℕ) : ℤ) with hd | hd
  · have hdq : (dateDiff v c : ℚ) ≤ ((r.max_days.getD 3 : ℕ) : ℚ) := by
      exact_mod_cast hd
    have hone : (dateDiff v c : ℚ) / ((r.max_days.getD 3 : ℕ) : ℚ) ≤ 1 :=
      (div_le_one hmq).2 hdq
    have hmax : max (0:ℚ) (1 - (dateDiff v c : ℚ) / ((r.max_days.getD 3 : ℕ) : ℚ))
        = 1 - (dateDiff v c : ℚ) / ((r.max_days.getD 3 : ℕ) : ℚ) :=
      max_eq_right (by linarith)
    simp [ruleContribution, ruleScore, hr, hd, hmax]
  · have hdq : ((r.max_days.getD 3 : ℕ) : ℚ) < (dateDiff v c : ℚ) := by
      exact_mod_cast hd
    have hone : 1 ≤ (dateDiff v c : ℚ) / ((r.max_days.getD 3 : ℕ) : ℚ) :=
      (one_le_div hmq).2 (le_of_lt hdq)
    have hmax : max (0:ℚ) (1 - (dateDiff v c : ℚ) / ((r.max_days.getD 3 : ℕ) : ℚ)) = 0 :=
      max_eq_left (by linarith)
    have hnd : ¬ dateDiff v c ≤ ((r.max_days.getD 3 : ℕ) : ℤ) := not_le.2 hd
    simp [ruleContribution, ruleScore, hr, hnd, hmax]

/-- Claim C9 witness: the amended formula evaluated for a 2-day difference
under the default `max_days = 3`. -/
theorem c9_witness :
    ({ rule_type := "date_proximity", weight := 1 } : MatchingRule).rule_type
        = "date_proximity" ∧
    0 < ({ rule_type := "date_proximity", weight := 1 } : MatchingRule).max_days.getD 3 ∧
    (ruleContribution { rule_type := "date_proximity", weight := 1 }
        { voucher_id := "VW", total_amount := 10, voucher_date := 0 }
        { bank_txn_id := "TW", amount := 10, txn_date := 2 }
      = ({ rule_type := "date_proximity", weight := 1 } : MatchingRule).weight *
          max 0 (1 - (dateDiff
              { voucher_id := "VW", total_amount := 10, voucher_date := 0 }
              { bank_txn_id := "TW", amount := 10, txn_date := 2 } : ℚ) /
            ((({ rule_type := "date_proximity", weight := 1 } : MatchingRule).max_days.getD 3
              : ℕ) : ℚ)) ∧
      (({ rule_type := "date_proximity", weight := 1 } : MatchingRule).max_days = none →
        ({ rule_type := "date_proximity", weight := 1 } : MatchingRule).max_days.getD 3 = 3)) :=
  ⟨rfl, by norm_num,
    c9_date_proximity { rule_type := "date_proximity", weight := 1 }
      { voucher_id := "VW", total_amount := 10, voucher_date := 0 }
      { bank_txn_id := "TW", amount := 10, txn_date := 2 } rfl (by norm_num)⟩

/-- Claim C10 (confirmed): the U(θ) batch utility score lies in `[0,1]` for
any counts and any average confidence in `[0,1]`, and equals 0 when all three
counts are zero. -/
theorem c10_u_theta_bounds (s n u : ℕ) (conf : ℚ) (h0 : 0 ≤ conf) (h1 : conf ≤ 1) :
    0 ≤ calculateUThetaScore s n u conf ∧ calculateUThetaScore s n u conf ≤ 1 ∧
    (s + n + u = 0 → calculateUThetaScore s n u conf = 0) := by
  unfold calculateUThetaScore
  split_ifs with ht
  · norm_num
  · have hweighted : 0 ≤ ((s : ℚ) * 1 + (n : ℚ) * (7/10) + (u : ℚ) * 0) / ((s + n + u : ℕ) : ℚ) := by
      apply div_nonneg
      · positivity
      · positivity
    refine ⟨le_min (by norm_num) (mul_nonneg hweighted h0), min_le_left _ _, fun h => absurd h ht⟩

/-- Claim C10 witness: a batch of 2 matched, 1 near and 1 unmatched items
with average confidence 0.9. -/
theorem c10_witness :
    (0 : ℚ) ≤ 9/10 ∧ (9/10 : ℚ) ≤ 1 ∧
    (0 ≤ calculateUThetaScore 2 1 1 (9/10) ∧ calculateUThetaScore 2 1 1 (9/10) ≤ 1 ∧
      (2 + 1 + 1 = 0 → calculateUThetaScore 2 1 1 (9/10) = 0)) :=
  ⟨by norm_num, by norm_num, c10_u_theta_bounds 2 1 1 (9/10) (by norm_num) (by norm_num)⟩

end CABackend
